import Mathlib

/-!
Verification of the HTTP-Client repository: a shallow embedding of the
FetchWrapper (fetch-wrapper.js), the form validators (validators.js) and the
client-side PaginationManager (pagination.js), together with theorems that
settle the specification's claims about them.

JavaScript strings are modelled by Lean `String`, JavaScript numbers that the
code actually handles (HTTP status codes, page indices, item counts, integer
ids) by `Nat`/`Int`, and JavaScript values whose type is not fixed (JSON
bodies, form-field values) by small inductive types.  Asynchronous `fetch`
is modelled by passing the outcome of the network transaction as an explicit
input, so `sendRequest` becomes a pure function of that outcome.
-/

/-! ## JavaScript string primitives -/

/-- Whitespace characters removed by `String.prototype.trim` (the common
ASCII subset used throughout this development). -/
def isWsChar (c : Char) : Bool := c == ' ' || c == '\t' || c == '\n' || c == '\r'

/-- Removes leading and trailing whitespace from a character list. -/
def trimChars (cs : List Char) : List Char :=
  ((cs.dropWhile isWsChar).reverse.dropWhile isWsChar).reverse

/-- Model of `String.prototype.trim()`. -/
def jsTrim (s : String) : String := String.mk (trimChars s.data)

/-- Whether `sub` occurs as a prefix of the character list. -/
def charsStartWith : List Char → List Char → Bool
  | [], _ => true
  | _ :: _, [] => false
  | a :: as, b :: bs => a == b && charsStartWith as bs

/-- Whether `sub` occurs as a contiguous run inside the character list. -/
def hasSubstrChars (sub : List Char) : List Char → Bool
  | [] => sub.isEmpty
  | c :: rest => charsStartWith sub (c :: rest) || hasSubstrChars sub rest

/-- Model of `String.prototype.includes(sub)`. -/
def jsIncludes (s sub : String) : Bool := hasSubstrChars sub.data s.data

/-! ## JSON values and JavaScript property access

The error-body handling of `FetchWrapper.sendRequest` reads the `message`
and `error` properties of whatever `response.json()` produced and tests them
for truthiness, so the embedding needs a small JSON value type with
JavaScript property-access and coercion semantics. -/

/-- A JSON value, as produced by `response.json()`. -/
inductive Json where
  | null
  | bool (b : Bool)
  | num (n : Int)
  | str (s : String)
  | obj (fields : List (String × Json))

/-- Result of a JavaScript property access `v.k`: either a value (`none`
standing for `undefined`), or a thrown `TypeError` when `v` is `null`. -/
inductive JsFieldAccess where
  | value (v : Option Json)
  | throws

/-- Model of the property access `v.k` on a JSON value: objects yield the
field (or `undefined`), `null` throws, and primitives have no own
properties so yield `undefined`. -/
def Json.getField : Json → String → JsFieldAccess
  | .null, _ => .throws
  | .obj fields, k => .value (fields.lookup k)
  | _, _ => .value none

/-- JavaScript truthiness of a possibly-`undefined` JSON value. -/
def jsTruthy : Option Json → Bool
  | none => false
  | some .null => false
  | some (.bool b) => b
  | some (.num n) => n != 0
  | some (.str s) => s != ""
  | some (.obj _) => true

/-- JavaScript string coercion of a possibly-`undefined` JSON value, as
applied by the `Error` constructor to its message argument. -/
def jsMessageString : Option Json → String
  | none => "undefined"
  | some .null => "null"
  | some (.bool b) => if b then "true" else "false"
  | some (.num n) => toString n
  | some (.str s) => s
  | some (.obj _) => "[object Object]"

/-! ## FetchWrapper (fetch-wrapper.js) -/

/-- A JavaScript error object as seen by the `catch` clause of
`sendRequest`: whether it is an `instanceof TypeError`, and its `message`. -/
structure JsError where
  isTypeError : Bool
  message : String
deriving Repr, DecidableEq

/-- The observable part of a `fetch` `Response`: its `status`, its
`statusText`, and the outcome of `response.json()` (`Except.error` carries
the error that the json promise rejected with, e.g. a `SyntaxError` for an
unparseable body). -/
structure Response where
  status : Nat
  statusText : String
  jsonResult : Except JsError Json

/-- The outcome of the `fetch(url, config)` call itself: resolution with a
response, or rejection with an error. -/
inductive FetchOutcome where
  | resolve (r : Response)
  | reject (e : JsError)

/-- An error escaping `sendRequest`: `CustomError` (the repository's
status-carrying error class) or `NetworkError`. -/
inductive SendError where
  | customError (status : Nat) (statusText : String) (message : String)
  | networkError (message : String)

/-- An error arriving at the `catch` clause of `sendRequest`: either the
`CustomError` thrown by the non-ok branch, or a plain JavaScript error
(from `fetch` itself or from `response.json()`). -/
inductive Caught where
  | custom (status : Nat) (statusText : String) (message : String)
  | js (e : JsError)

/-- The fixed message of the `NetworkError` raised for a rejected `fetch`
recognised as a network failure. -/
def fixedNetworkMessage : String :=
  "Network error: Unable to reach the server. Please check your connection."

/-- The error-message computation of the non-ok branch of `sendRequest`:
start from the generic `HTTP Error: <status> <statusText>` string, then try
to read a truthy `message` (else a truthy `error`) property from the parsed
error body, keeping the generic string when parsing or property access
throws. -/
def errorBodyMessage (status : Nat) (statusText : String)
    (parsed : Except JsError Json) : String :=
  let dflt := "HTTP Error: " ++ toString status ++ " " ++ statusText
  match parsed with
  | .error _ => dflt
  | .ok errorData =>
    match errorData.getField "message" with
    | .throws => dflt
    | .value mv =>
      if jsTruthy mv then jsMessageString mv
      else
        match errorData.getField "error" with
        | .throws => dflt
        | .value ev => if jsTruthy ev then jsMessageString ev else dflt

namespace FetchWrapper

/-- The `try` block of `FetchWrapper.sendRequest`: await `fetch`; on a
non-ok status (outside 200-299) throw a `CustomError` built with
`errorBodyMessage`; otherwise parse and return the JSON body, letting any
parse rejection escape to the `catch` clause. -/
def sendRequestTry (outcome : FetchOutcome) : Except Caught Json :=
  match outcome with
  | .reject e => .error (.js e)
  | .resolve r =>
    if 200 ≤ r.status ∧ r.status ≤ 299 then
      match r.jsonResult with
      | .ok data => .ok data
      | .error e => .error (.js e)
    else
      .error (.custom r.status r.statusText
        (errorBodyMessage r.status r.statusText r.jsonResult))

/-- The `catch` clause of `sendRequest`: re-throw a `CustomError` as-is;
turn a `TypeError` whose message contains `"fetch"` into a `NetworkError`
with the fixed network message; turn any other error into a `NetworkError`
with message `Request failed: <original message>`. -/
def classifyCaught : Caught → SendError
  | .custom status statusText message => .customError status statusText message
  | .js e =>
    if e.isTypeError && jsIncludes e.message "fetch" then
      .networkError fixedNetworkMessage
    else
      .networkError ("Request failed: " ++ e.message)

/-- Model of `FetchWrapper.sendRequest`, as a function of the fetch
outcome: the `try` block, with every escaping error routed through the
`catch` clause. -/
def sendRequest (outcome : FetchOutcome) : Except SendError Json :=
  match sendRequestTry outcome with
  | .ok data => .ok data
  | .error c => .error (classifyCaught c)

end FetchWrapper

/-- The error-message rule exactly as claim C1 words it: the `message`
field of the JSON error body if present, else the `error` field if present,
else the generic `HTTP Error: <status> <statusText>` string (also used when
the body is not parseable JSON). -/
def specC1Message (status : Nat) (statusText : String)
    (parsed : Except JsError Json) : String :=
  let dflt := "HTTP Error: " ++ toString status ++ " " ++ statusText
  match parsed with
  | .error _ => dflt
  | .ok body =>
    match body.getField "message" with
    | .value (some m) => jsMessageString (some m)
    | _ =>
      match body.getField "error" with
      | .value (some e) => jsMessageString (some e)
      | _ => dflt

/-- The amended error-message rule: the `message` field if present and
truthy (for a string field, non-empty), else the `error` field if present
and truthy, else the generic string; written directly on the shape of the
parsed body. -/
def specC1MessageAmended (status : Nat) (statusText : String)
    (parsed : Except JsError Json) : String :=
  let dflt := "HTTP Error: " ++ toString status ++ " " ++ statusText
  match parsed with
  | .ok (.obj fields) =>
    match fields.lookup "message" with
    | some m =>
      if jsTruthy (some m) then jsMessageString (some m)
      else
        match fields.lookup "error" with
        | some e => if jsTruthy (some e) then jsMessageString (some e) else dflt
        | none => dflt
    | none =>
      match fields.lookup "error" with
      | some e => if jsTruthy (some e) then jsMessageString (some e) else dflt
      | none => dflt
  | _ => dflt

/-- The code's error-message computation agrees everywhere with the amended
truthiness-based rule. -/
theorem errorBodyMessage_eq_amended (status : Nat) (statusText : String)
    (parsed : Except JsError Json) :
    errorBodyMessage status statusText parsed
      = specC1MessageAmended status statusText parsed := by
  cases parsed with
  | error e => rfl
  | ok body =>
    cases body with
    | null => rfl
    | bool b => rfl
    | num n => rfl
    | str s => rfl
    | obj fields =>
      simp only [errorBodyMessage, specC1MessageAmended, Json.getField]
      cases fields.lookup "message" with
      | none =>
        simp only [jsTruthy, Bool.false_eq_true, if_false]
        cases fields.lookup "error" <;> rfl
      | some m =>
        by_cases hm : jsTruthy (some m) = true
        · simp [hm]
        · simp only [Bool.not_eq_true] at hm
          simp only [hm, Bool.false_eq_true, if_false]
          cases fields.lookup "error" <;> rfl

/-- Claim C1 is false as stated: for a 404 response whose JSON body has a
present but empty `message` field and an `error` field `"oops"`, the code
raises a `CustomError` carrying `"oops"`, while the claim's rule ("the
`message` field if present") demands the empty string. -/
theorem sendRequest_message_field_cex :
    FetchWrapper.sendRequest (.resolve ⟨404, "Not Found",
        .ok (.obj [("message", Json.str ""), ("error", Json.str "oops")])⟩)
      = .error (.customError 404 "Not Found" "oops")
    ∧ specC1Message 404 "Not Found"
        (.ok (.obj [("message", Json.str ""), ("error", Json.str "oops")])) = ""
    ∧ ("oops" : String) ≠ "" :=
  ⟨rfl, rfl, by decide⟩

/-- Claim C1 (amended): for every response with status outside 200-299,
`sendRequest` raises a `CustomError` carrying that status and statusText,
whose message is the `message` field of the JSON error body if present and
truthy (for a string, non-empty), else the `error` field if present and
truthy, else `HTTP Error: <status> <statusText>` (also used when the body
is not parseable JSON). -/
theorem sendRequest_status_error_message (r : Response)
    (h : ¬(200 ≤ r.status ∧ r.status ≤ 299)) :
    FetchWrapper.sendRequest (.resolve r)
      = .error (.customError r.status r.statusText
          (specC1MessageAmended r.status r.statusText r.jsonResult)) := by
  simp only [FetchWrapper.sendRequest, FetchWrapper.sendRequestTry]
  rw [if_neg h]
  simp [FetchWrapper.classifyCaught, errorBodyMessage_eq_amended]

/-- Witness for `sendRequest_status_error_message`: the 404 response with
body `{"message":"not found"}` yields `CustomError 404 "Not Found"
"not found"`. -/
theorem sendRequest_status_error_message_witness :
    FetchWrapper.sendRequest (.resolve ⟨404, "Not Found",
        .ok (.obj [("message", Json.str "not found")])⟩)
      = .error (.customError 404 "Not Found" "not found") := by
  rw [sendRequest_status_error_message
    ⟨404, "Not Found", .ok (.obj [("message", Json.str "not found")])⟩ (by decide)]
  rfl

/-- Claim C2 is false as stated: a fetch rejection with a `TypeError`
whose message does not contain `"fetch"` (e.g. `"Load failed"`) is
reclassified as a `NetworkError` carrying `"Request failed: Load failed"`,
not the one fixed network message. -/
theorem sendRequest_reject_fixed_message_cex :
    FetchWrapper.sendRequest (.reject ⟨true, "Load failed"⟩)
      = .error (.networkError "Request failed: Load failed")
    ∧ "Request failed: Load failed" ≠ fixedNetworkMessage :=
  ⟨rfl, by decide⟩

/-- Claim C2 (amended): every rejection of the fetch primitive is
reclassified as a `NetworkError` — with the fixed network message exactly
when the rejected error is a `TypeError` whose message contains `"fetch"`,
and with message `Request failed: <original message>` otherwise — and this
reclassification never fires for the `CustomError` raised on a non-2xx
status, which `sendRequest` reports unchanged as a status error, never as a
`NetworkError`. -/
theorem sendRequest_reject_reclassified (e : JsError) (r : Response)
    (h : ¬(200 ≤ r.status ∧ r.status ≤ 299)) :
    ((e.isTypeError && jsIncludes e.message "fetch") = true →
      FetchWrapper.sendRequest (.reject e)
        = .error (.networkError fixedNetworkMessage)) ∧
    ((e.isTypeError && jsIncludes e.message "fetch") = false →
      FetchWrapper.sendRequest (.reject e)
        = .error (.networkError ("Request failed: " ++ e.message))) ∧
    (∃ m, FetchWrapper.sendRequest (.resolve r)
        = .error (.customError r.status r.statusText m)) ∧
    (∀ m, FetchWrapper.sendRequest (.resolve r)
        ≠ .error (.networkError m)) := by
  refine ⟨fun hf => ?_, fun hf => ?_, ?_, ?_⟩
  · simp [FetchWrapper.sendRequest, FetchWrapper.sendRequestTry,
      FetchWrapper.classifyCaught, hf]
  · simp [FetchWrapper.sendRequest, FetchWrapper.sendRequestTry,
      FetchWrapper.classifyCaught, hf]
  · exact ⟨errorBodyMessage r.status r.statusText r.jsonResult, by
      simp [FetchWrapper.sendRequest, FetchWrapper.sendRequestTry, if_neg h,
        FetchWrapper.classifyCaught]⟩
  · intro m
    simp [FetchWrapper.sendRequest, FetchWrapper.sendRequestTry, if_neg h,
      FetchWrapper.classifyCaught]

/-- Witness for `sendRequest_reject_reclassified`: a `TypeError` rejection
mentioning fetch gets the fixed message, a non-`TypeError` rejection gets a
`Request failed` message, and a 500 response yields a `CustomError`. -/
theorem sendRequest_reject_reclassified_witness :
    FetchWrapper.sendRequest (.reject ⟨true, "Failed to fetch"⟩)
      = .error (.networkError fixedNetworkMessage)
    ∧ FetchWrapper.sendRequest (.reject ⟨false, "oops"⟩)
      = .error (.networkError ("Request failed: " ++ "oops"))
    ∧ (∃ m, FetchWrapper.sendRequest
          (.resolve ⟨500, "Internal Server Error", .error ⟨false, "bad"⟩⟩)
        = .error (.customError 500 "Internal Server Error" m)) :=
  ⟨(sendRequest_reject_reclassified ⟨true, "Failed to fetch"⟩
      ⟨500, "Internal Server Error", .error ⟨false, "bad"⟩⟩ (by decide)).1 (by decide),
   (sendRequest_reject_reclassified ⟨false, "oops"⟩
      ⟨500, "Internal Server Error", .error ⟨false, "bad"⟩⟩ (by decide)).2.1 (by decide),
   (sendRequest_reject_reclassified ⟨true, "Failed to fetch"⟩
      ⟨500, "Internal Server Error", .error ⟨false, "bad"⟩⟩ (by decide)).2.2.1⟩

/-! ## Validators (validators.js) -/

/-- A JavaScript primitive value as received by the validators and the
filter sanitizer: `null`, `undefined`, a number, or a string. -/
inductive JsPrim where
  | null
  | undef
  | num (n : Int)
  | str (s : String)
deriving Repr, DecidableEq

/-- JavaScript truthiness test `!v` (negated) for a primitive value. -/
def jsPrimFalsy : JsPrim → Bool
  | .null => true
  | .undef => true
  | .num n => n == 0
  | .str s => s == ""

/-- The result shape shared by all validators. -/
structure ValidationResult where
  isValid : Bool
  errors : List String
deriving Repr, DecidableEq

/-- The input record of `validateHealthService`; a missing form field is
`none` (`undefined`), `is_free` may be a number or a string. -/
structure HealthServiceData where
  hospital_name : Option String
  service_type : Option String
  is_free : JsPrim
  requirements : Option String

/-- The hospital-name block of `validateHealthService`: required when the
name is missing, empty, or whitespace-only; otherwise its (untrimmed)
length must be at least 3 and at most 100. -/
def hospitalNameErrors : Option String → List String
  | none => ["Hospital name is required."]
  | some s =>
    if s == "" || jsTrim s == "" then ["Hospital name is required."]
    else if s.length < 3 then ["Hospital name must be at least 3 characters long."]
    else if s.length > 100 then ["Hospital name must not exceed 100 characters."]
    else []

/-- The fixed list of accepted service types. -/
def validServiceTypes : List String :=
  ["child_mental", "prenatal", "adult", "general", "other"]

/-- The service-type block of `validateHealthService`. -/
def serviceTypeErrors : Option String → List String
  | none => ["Service type is required."]
  | some s =>
    if s == "" || jsTrim s == "" then ["Service type is required."]
    else if validServiceTypes.contains s then []
    else ["Invalid service type. Must be one of: child_mental, prenatal, adult, general, other."]

/-- The cost block of `validateHealthService`: `is_free` is required
(strictly compared against `""`, `undefined`, `null`) and must be one of
`0`, `1`, `"0"`, `"1"`. -/
def isFreeErrors (v : JsPrim) : List String :=
  if v == .str "" || v == .undef || v == .null then
    ["Cost (free/paid) selection is required."]
  else if [JsPrim.num 0, JsPrim.num 1, JsPrim.str "0", JsPrim.str "1"].contains v then []
  else ["Invalid cost selection."]

/-- The requirements block of `validateHealthService`: optional, but a
truthy value is capped at 500 characters. -/
def requirementsErrors : Option String → List String
  | none => []
  | some s =>
    if s != "" && s.length > 500 then ["Requirements must not exceed 500 characters."]
    else []

/-- Model of `validateHealthService`: the four field blocks evaluated in
order, every violation appended. -/
def validateHealthService (d : HealthServiceData) : ValidationResult :=
  let errors := hospitalNameErrors d.hospital_name
    ++ serviceTypeErrors d.service_type
    ++ isFreeErrors d.is_free
    ++ requirementsErrors d.requirements
  { isValid := errors.isEmpty, errors := errors }

/-- Sign handling of `Number.parseInt`: an optional leading `+` or `-`. -/
def parseSignChars : List Char → Int × List Char
  | '+' :: rest => (1, rest)
  | '-' :: rest => (-1, rest)
  | cs => (1, cs)

/-- Decimal value of a digit list. -/
def digitsValChars (ds : List Char) : Nat :=
  ds.foldl (fun acc c => acc * 10 + (c.toNat - '0'.toNat)) 0

/-- Model of `Number.parseInt` on a string: skip leading whitespace, read
an optional sign and then the longest run of decimal digits; `none` is
`NaN` (no digits). Hexadecimal input is outside the modelled input space. -/
def parseIntChars (cs : List Char) : Option Int :=
  let cs1 := cs.dropWhile isWsChar
  let sc := parseSignChars cs1
  let ds := sc.2.takeWhile (fun c => c.isDigit)
  if ds.isEmpty then none else some (sc.1 * (digitsValChars ds : Int))

/-- Model of `Number.parseInt` on the values `validateId` receives: an
integer number is taken as-is, a string is parsed, `null` and `undefined`
stringify to digit-free strings and give `NaN`. -/
def parseIntJs : JsPrim → Option Int
  | .num n => some n
  | .str s => parseIntChars s.data
  | .null => none
  | .undef => none

/-- Model of `validateId`: required unless falsy, and `parseInt` of it
must be a number strictly greater than zero. -/
def validateId (id : JsPrim) (fieldName : String := "ID") : ValidationResult :=
  let errors :=
    if jsPrimFalsy id || id == .str "" then [fieldName ++ " is required."]
    else
      match parseIntJs id with
      | none => [fieldName ++ " must be a positive number."]
      | some n => if n ≤ 0 then [fieldName ++ " must be a positive number."] else []
  { isValid := errors.isEmpty, errors := errors }

/-- The search parameters of `validateSportsDbParams`. -/
structure SportsDbParams where
  sport : Option String
  country : Option String

/-- The blank test `!v || v.trim() === ""` applied to each parameter. -/
def blankParam : Option String → Bool
  | none => true
  | some s => s == "" || jsTrim s == ""

/-- Model of `validateSportsDbParams`: at least one of the two filters
must be non-blank. -/
def validateSportsDbParams (params : SportsDbParams) : ValidationResult :=
  let errors :=
    if blankParam params.sport && blankParam params.country then
      ["Please provide at least a sport or country filter."]
    else []
  { isValid := errors.isEmpty, errors := errors }

/-- The keep condition of `sanitizeFilters`:
`value !== null && value !== undefined && value !== ""`. -/
def keepFilterValue (v : JsPrim) : Bool :=
  v != .null && v != .undef && v != .str ""

/-- JavaScript `String(value)` on a primitive value. -/
def jsStringOf : JsPrim → String
  | .null => "null"
  | .undef => "undefined"
  | .num n => toString n
  | .str s => s

/-- Model of `sanitizeFilters`: iterate over the entries in order, keep
those whose value is neither `null` nor `undefined` nor `""`, and store
`String(value).trim()` under the same key. -/
def sanitizeFilters : List (String × JsPrim) → List (String × String)
  | [] => []
  | (k, v) :: rest =>
    if keepFilterValue v then (k, jsTrim (jsStringOf v)) :: sanitizeFilters rest
    else sanitizeFilters rest

/-- The hospital name of the specification's second example, built
character by character: `St. Luke` followed by an apostrophe and `s`. -/
def stLukesName : String :=
  String.mk ['S', 't', '.', ' ', 'L', 'u', 'k', 'e', Char.ofNat 39, 's']

/-- Every message the service-type block can emit. -/
theorem serviceTypeErrors_cases (v : Option String) (x : String)
    (hx : x ∈ serviceTypeErrors v) :
    x = "Service type is required."
    ∨ x = "Invalid service type. Must be one of: child_mental, prenatal, adult, general, other." := by
  cases v with
  | none =>
    simp [serviceTypeErrors] at hx
    exact Or.inl hx
  | some s =>
    simp only [serviceTypeErrors] at hx
    split at hx
    · simp at hx
      exact Or.inl hx
    · split at hx
      · simp at hx
      · simp at hx
        exact Or.inr hx

/-- Every message the cost block can emit. -/
theorem isFreeErrors_cases (v : JsPrim) (x : String) (hx : x ∈ isFreeErrors v) :
    x = "Cost (free/paid) selection is required." ∨ x = "Invalid cost selection." := by
  simp only [isFreeErrors] at hx
  split at hx
  · simp at hx
    exact Or.inl hx
  · split at hx
    · simp at hx
    · simp at hx
      exact Or.inr hx

/-- Every message the requirements block can emit. -/
theorem requirementsErrors_cases (v : Option String) (x : String)
    (hx : x ∈ requirementsErrors v) :
    x = "Requirements must not exceed 500 characters." := by
  cases v with
  | none => simp [requirementsErrors] at hx
  | some s =>
    simp only [requirementsErrors] at hx
    split at hx
    · simp at hx
      exact hx
    · simp at hx

/-- A hospital-name message occurs among the errors of
`validateHealthService` exactly when the hospital-name block emits it: the
other three blocks never produce it. -/
theorem name_msg_mem_validate (d : HealthServiceData) (m : String)
    (hm : m = "Hospital name is required."
      ∨ m = "Hospital name must be at least 3 characters long."
      ∨ m = "Hospital name must not exceed 100 characters.") :
    m ∈ (validateHealthService d).errors ↔ m ∈ hospitalNameErrors d.hospital_name := by
  simp only [validateHealthService, List.mem_append]
  constructor
  · rintro (((h | h) | h) | h)
    · exact h
    · exfalso
      rcases hm with rfl | rfl | rfl <;>
        rcases serviceTypeErrors_cases _ _ h with h2 | h2 <;> exact absurd h2 (by decide)
    · exfalso
      rcases hm with rfl | rfl | rfl <;>
        rcases isFreeErrors_cases _ _ h with h2 | h2 <;> exact absurd h2 (by decide)
    · exfalso
      rcases hm with rfl | rfl | rfl <;>
        exact absurd (requirementsErrors_cases _ _ h) (by decide)
  · intro h
    exact Or.inl (Or.inl (Or.inl h))

/-- Claim C4 is false as stated: the record with hospital name `" a "`
(untrimmed length 3, trimmed length 1) is accepted with zero errors, while
the claim demands a name-length violation whenever the trimmed length lies
outside 3..100. -/
theorem validateHealthService_trimmed_cex :
    validateHealthService ⟨some " a ", some "general", JsPrim.num 1, none⟩
      = ⟨true, []⟩
    ∧ ¬(3 ≤ (jsTrim " a ").length ∧ (jsTrim " a ").length ≤ 100) :=
  ⟨rfl, by decide⟩

/-- Claim C4 (amended): `validateHealthService` rejects a missing or blank
hospital name, and otherwise reports a name-length violation exactly when
the untrimmed name length lies outside 3..100; in particular the record
with name `"AB"` is invalid with exactly one error (name too short) and
the record with name `St. Luke's` is valid with zero errors. -/
theorem validateHealthService_name_rules (d : HealthServiceData) :
    (d.hospital_name = none →
      "Hospital name is required." ∈ (validateHealthService d).errors) ∧
    (∀ s, d.hospital_name = some s →
      (((s == "" || jsTrim s == "") = true →
          "Hospital name is required." ∈ (validateHealthService d).errors) ∧
       ((s == "" || jsTrim s == "") = false →
          ("Hospital name is required." ∉ (validateHealthService d).errors
           ∧ ("Hospital name must be at least 3 characters long."
                ∈ (validateHealthService d).errors ↔ s.length < 3)
           ∧ ("Hospital name must not exceed 100 characters."
                ∈ (validateHealthService d).errors ↔ 100 < s.length))))) ∧
    validateHealthService ⟨some "AB", some "general", JsPrim.num 1, none⟩
      = ⟨false, ["Hospital name must be at least 3 characters long."]⟩ ∧
    validateHealthService ⟨some stLukesName, some "general", JsPrim.num 1, none⟩
      = ⟨true, []⟩ := by
  refine ⟨?_, ?_, rfl, rfl⟩
  · intro hn
    rw [name_msg_mem_validate d _ (Or.inl rfl), hn]
    simp [hospitalNameErrors]
  · intro s hs
    constructor
    · intro hblank
      rw [name_msg_mem_validate d _ (Or.inl rfl), hs]
      simp [hospitalNameErrors, hblank]
    · intro hblank
      refine ⟨?_, ?_, ?_⟩
      · rw [name_msg_mem_validate d _ (Or.inl rfl), hs]
        simp only [hospitalNameErrors, hblank, Bool.false_eq_true, if_false]
        split
        · decide
        · split <;> decide
      · rw [name_msg_mem_validate d _ (Or.inr (Or.inl rfl)), hs]
        simp only [hospitalNameErrors, hblank, Bool.false_eq_true, if_false]
        by_cases h3 : s.length < 3
        · simp [h3]
        · simp only [h3, if_false]
          constructor
          · intro h
            split at h <;> simp at h
          · intro h
            exact h.elim
      · rw [name_msg_mem_validate d _ (Or.inr (Or.inr rfl)), hs]
        simp only [hospitalNameErrors, hblank, Bool.false_eq_true, if_false]
        by_cases h3 : s.length < 3
        · simp only [h3, if_true]
          constructor
          · intro h
            simp at h
          · intro h
            exfalso
            omega
        · simp only [h3, if_false]
          by_cases h100 : s.length > 100
          · simp [h100]
          · simp only [h100, if_false]
            constructor
            · intro h
              simp at h
            · intro h
              exact h.elim

/-- Witness for `validateHealthService_name_rules`: a missing name is
rejected, and for the name `"AB"` the too-short message appears since its
length is below 3. -/
theorem validateHealthService_name_rules_witness :
    "Hospital name is required."
      ∈ (validateHealthService ⟨none, some "general", JsPrim.num 1, none⟩).errors
    ∧ ("Hospital name must be at least 3 characters long."
        ∈ (validateHealthService ⟨some "AB", some "general", JsPrim.num 1, none⟩).errors
       ↔ "AB".length < 3) :=
  ⟨(validateHealthService_name_rules ⟨none, some "general", JsPrim.num 1, none⟩).1 rfl,
   ((((validateHealthService_name_rules
        ⟨some "AB", some "general", JsPrim.num 1, none⟩).2.1 "AB" rfl).2 (by decide)).2.1)⟩

/-- Claim C9: for every input, each validator returns a result in which
`isValid` is true if and only if the errors list is empty. -/
theorem validators_isValid_iff_no_errors :
    (∀ d, (validateHealthService d).isValid = true
      ↔ (validateHealthService d).errors = []) ∧
    (∀ id fieldName, (validateId id fieldName).isValid = true
      ↔ (validateId id fieldName).errors = []) ∧
    (∀ p, (validateSportsDbParams p).isValid = true
      ↔ (validateSportsDbParams p).errors = []) := by
  refine ⟨fun d => ?_, fun id fieldName => ?_, fun p => ?_⟩ <;>
    simp [validateHealthService, validateId, validateSportsDbParams,
      List.isEmpty_iff]

/-- Unfolding of `sanitizeFilters` as a filter of the kept entries followed
by the key-preserving conversion of each kept value. -/
theorem sanitizeFilters_eq_filter_map (filters : List (String × JsPrim)) :
    sanitizeFilters filters
      = (filters.filter (fun kv => keepFilterValue kv.2)).map
          (fun kv => (kv.1, jsTrim (jsStringOf kv.2))) := by
  induction filters with
  | nil => rfl
  | cons kv rest ih =>
    obtain ⟨k, v⟩ := kv
    by_cases h : keepFilterValue v = true
    · simp [sanitizeFilters, List.filter_cons, h, ih]
    · simp [sanitizeFilters, List.filter_cons, h, ih]

/-- Claim C8: `sanitizeFilters` keeps exactly the entries whose value is
neither `null` nor `undefined` nor the empty string, converting each kept
value to a trimmed string under its original key; in particular
`{a:"", b:" x ", c:null}` maps to `{b:"x"}`. -/
theorem sanitizeFilters_drops_empty_and_trims (filters : List (String × JsPrim)) :
    sanitizeFilters filters
      = (filters.filter
            (fun kv => kv.2 != .null && kv.2 != .undef && kv.2 != .str "")).map
          (fun kv => (kv.1, jsTrim (jsStringOf kv.2)))
    ∧ sanitizeFilters [("a", JsPrim.str ""), ("b", JsPrim.str " x "), ("c", JsPrim.null)]
        = [("b", "x")] :=
  ⟨sanitizeFilters_eq_filter_map filters, by decide⟩

/-- Claim C10: a key whose value is a non-empty but whitespace-only string
survives `sanitizeFilters` with the empty string as its value, because
entries are dropped by comparing the value against `""` before trimming. -/
theorem sanitizeFilters_keeps_whitespace_only (filters : List (String × JsPrim))
    (k s : String) (hmem : (k, JsPrim.str s) ∈ filters) (hne : s ≠ "")
    (hws : jsTrim s = "") :
    (k, "") ∈ sanitizeFilters filters := by
  rw [sanitizeFilters_eq_filter_map]
  have hkeep : keepFilterValue (JsPrim.str s) = true := by
    simp [keepFilterValue, hne]
  have h1 : (k, JsPrim.str s) ∈ filters.filter (fun kv => keepFilterValue kv.2) :=
    List.mem_filter.mpr ⟨hmem, hkeep⟩
  have h2 := List.mem_map_of_mem (fun kv => (kv.1, jsTrim (jsStringOf kv.2))) h1
  simpa [jsStringOf, hws] using h2

/-- Witness for `sanitizeFilters_keeps_whitespace_only`: the single-entry
mapping with value `" "` keeps its key with value `""`. -/
theorem sanitizeFilters_keeps_whitespace_only_witness :
    ("a", "") ∈ sanitizeFilters [("a", JsPrim.str " ")] :=
  sanitizeFilters_keeps_whitespace_only [("a", JsPrim.str " ")] "a" " "
    (by decide) (by decide) (by decide)

/-! ## PaginationManager (pagination.js)

The callback supplied at construction is observed through the second
component of each navigation operation: the list of arguments the
`onPageChange` callback is invoked with during that call, in order (so `[]`
means the callback did not fire, and a singleton means it fired exactly
once). -/

/-- The mutable state of a `PaginationManager`. -/
structure PaginationManager where
  currentPage : Nat
  pageSize : Nat
  totalItems : Nat
  totalPages : Nat
deriving Repr, DecidableEq

namespace PaginationManager

/-- The constructor: page 1, no items, no pages, and page size
`options.pageSize || 10` (a missing or zero page size falls back to 10). -/
def init (pageSize : Option Nat) : PaginationManager :=
  { currentPage := 1
    pageSize := match pageSize with
      | none => 10
      | some n => if n == 0 then 10 else n
    totalItems := 0
    totalPages := 0 }

/-- Ceiling division as computed by `Math.ceil(total / pageSize)` on
integer inputs with a positive page size (every constructed manager has
one). -/
def ceilNat (total size : Nat) : Nat := (total + size - 1) / size

/-- Model of `setTotalItems`: store the total, recompute `totalPages`, and
reset `currentPage` to 1 when it exceeds the new `totalPages` and
`totalPages` is positive. -/
def setTotalItems (st : PaginationManager) (total : Nat) : PaginationManager :=
  let tp := ceilNat total st.pageSize
  { st with
    totalItems := total
    totalPages := tp
    currentPage := if st.currentPage > tp ∧ tp > 0 then 1 else st.currentPage }

/-- Model of `getPageData`: `data.slice(start, start + pageSize)` with
`start = (currentPage - 1) * pageSize`. -/
def getPageData (st : PaginationManager) (data : List α) : List α :=
  let startIndex := (st.currentPage - 1) * st.pageSize
  (data.drop startIndex).take st.pageSize

/-- Model of `goToPage`: when the target is within `1..totalPages`, set
`currentPage` and fire the callback with the new page; otherwise do
nothing. The page argument is an integer so that out-of-range negative
targets are representable. -/
def goToPage (st : PaginationManager) (page : Int) : PaginationManager × List Nat :=
  if 1 ≤ page ∧ page ≤ (st.totalPages : Int) then
    ({ st with currentPage := page.toNat }, [page.toNat])
  else
    (st, [])

/-- Model of `nextPage`: increment when strictly below `totalPages`, firing
the callback with the new page. -/
def nextPage (st : PaginationManager) : PaginationManager × List Nat :=
  if st.currentPage < st.totalPages then
    ({ st with currentPage := st.currentPage + 1 }, [st.currentPage + 1])
  else
    (st, [])

/-- Model of `previousPage`: decrement when strictly above 1, firing the
callback with the new page. -/
def previousPage (st : PaginationManager) : PaginationManager × List Nat :=
  if st.currentPage > 1 then
    ({ st with currentPage := st.currentPage - 1 }, [st.currentPage - 1])
  else
    (st, [])

/-- Model of `reset`: back to page 1 with no items and no pages (the page
size is kept). -/
def reset (st : PaginationManager) : PaginationManager :=
  { st with currentPage := 1, totalItems := 0, totalPages := 0 }

/-- The states a `PaginationManager` can be in: constructed, then mutated
only by the five public operations. -/
inductive Reachable : PaginationManager → Prop
  | init (pageSize : Option Nat) : Reachable (init pageSize)
  | setTotal {st} (total : Nat) : Reachable st → Reachable (st.setTotalItems total)
  | goTo {st} (page : Int) : Reachable st → Reachable (st.goToPage page).1
  | next {st} : Reachable st → Reachable st.nextPage.1
  | prev {st} : Reachable st → Reachable st.previousPage.1
  | reset {st} : Reachable st → Reachable st.reset

/-- Every reachable state has a current page of at least 1 and a positive
page size. -/
theorem reachable_invariant {st : PaginationManager} (h : Reachable st) :
    1 ≤ st.currentPage ∧ 1 ≤ st.pageSize := by
  induction h with
  | init pageSize =>
    refine ⟨le_refl 1, ?_⟩
    cases pageSize with
    | none => exact Nat.le_of_lt (by decide)
    | some n =>
      by_cases hn : n == 0
      · simp [PaginationManager.init, hn]
      · simp only [PaginationManager.init, hn, Bool.false_eq_true, if_false]
        have hne : n ≠ 0 := by simpa using hn
        omega
  | setTotal total hr ih =>
    refine ⟨?_, ih.2⟩
    simp only [setTotalItems]
    split
    · exact le_refl 1
    · exact ih.1
  | goTo page hr ih =>
    refine ⟨?_, ?_⟩ <;> simp only [goToPage]
    · split
      · rename_i hc
        simpa using Int.toNat_le_toNat hc.1
      · exact ih.1
    · split <;> exact ih.2
  | next hr ih =>
    refine ⟨?_, ?_⟩ <;> simp only [nextPage]
    · split
      · exact Nat.le_add_left 1 _
      · exact ih.1
    · split <;> exact ih.2
  | prev hr ih =>
    refine ⟨?_, ?_⟩ <;> simp only [previousPage]
    · split
      · rename_i hc
        simp only []
        omega
      · exact ih.1
    · split <;> exact ih.2
  | reset hr ih =>
    exact ⟨le_refl 1, ih.2⟩

end PaginationManager

/-- Claim C3 is false as stated: from the reachable state obtained by
loading 50 items (5 pages of 10) and navigating to page 5, calling
`setTotalItems 0` recomputes `totalPages = 0` but leaves `currentPage = 5`,
violating `1 ≤ currentPage ≤ max(totalPages, 1)`, because the reset fires
only when the recomputed `totalPages` is positive. -/
theorem setTotalItems_invariant_cex :
    PaginationManager.Reachable
      ((((PaginationManager.init (some 10)).setTotalItems 50).goToPage 5).1.setTotalItems 0)
    ∧ ((((PaginationManager.init (some 10)).setTotalItems 50).goToPage 5).1.setTotalItems 0).currentPage = 5
    ∧ ((((PaginationManager.init (some 10)).setTotalItems 50).goToPage 5).1.setTotalItems 0).totalPages = 0
    ∧ ¬(((((PaginationManager.init (some 10)).setTotalItems 50).goToPage 5).1.setTotalItems 0).currentPage
          ≤ max ((((PaginationManager.init (some 10)).setTotalItems 50).goToPage 5).1.setTotalItems 0).totalPages 1) :=
  ⟨PaginationManager.Reachable.setTotal 0
      (PaginationManager.Reachable.goTo 5
        (PaginationManager.Reachable.setTotal 50
          (PaginationManager.Reachable.init (some 10)))),
   by decide, by decide, by decide⟩

/-- Claim C3 (amended): from every reachable state, `setTotalItems total`
recomputes `totalPages = ceil(total / pageSize)`; afterwards
`1 ≤ currentPage`, and whenever the recomputed `totalPages` is positive
also `currentPage ≤ totalPages` (the page having been clamped back to 1 if
it exceeded the bound); when the recomputed `totalPages` is 0 the current
page is left unchanged and may exceed 1. -/
theorem setTotalItems_bounds (st : PaginationManager) (total : Nat)
    (h : PaginationManager.Reachable st) :
    (st.setTotalItems total).totalPages = (total + st.pageSize - 1) / st.pageSize
    ∧ 1 ≤ (st.setTotalItems total).currentPage
    ∧ (1 ≤ (st.setTotalItems total).totalPages →
        (st.setTotalItems total).currentPage ≤ (st.setTotalItems total).totalPages)
    ∧ ((st.setTotalItems total).totalPages = 0 →
        (st.setTotalItems total).currentPage = st.currentPage) := by
  obtain ⟨hcp, hps⟩ := PaginationManager.reachable_invariant h
  have key : ∀ tp : Nat,
      1 ≤ (if st.currentPage > tp ∧ tp > 0 then 1 else st.currentPage)
      ∧ (1 ≤ tp → (if st.currentPage > tp ∧ tp > 0 then 1 else st.currentPage) ≤ tp)
      ∧ (tp = 0 →
          (if st.currentPage > tp ∧ tp > 0 then 1 else st.currentPage) = st.currentPage) := by
    intro tp
    refine ⟨?_, ?_, ?_⟩
    · split
      · exact le_refl 1
      · exact hcp
    · intro htp
      split
      · exact htp
      · rename_i hc
        simp only [not_and, not_lt] at hc
        omega
    · intro htp
      split
      · rename_i hc
        omega
      · rfl
  exact ⟨rfl, (key _).1, (key _).2.1, (key _).2.2⟩

/-- Witness for `setTotalItems_bounds`: a fresh manager with page size 10
given 25 items has 3 pages and a current page of at least 1. -/
theorem setTotalItems_bounds_witness :
    ((PaginationManager.init (some 10)).setTotalItems 25).totalPages = 3
    ∧ 1 ≤ ((PaginationManager.init (some 10)).setTotalItems 25).currentPage :=
  ⟨by decide,
   (setTotalItems_bounds (PaginationManager.init (some 10)) 25
      (PaginationManager.Reachable.init (some 10))).2.1⟩

/-- Claim C5: `goToPage` with a target below 1 or above `totalPages`
leaves the state unchanged and fires no callback; an in-range target sets
`currentPage` to it and fires the callback exactly once, with the new
page. -/
theorem goToPage_spec (st : PaginationManager) (page : Int) :
    (page < 1 ∨ (st.totalPages : Int) < page → st.goToPage page = (st, []))
    ∧ (1 ≤ page → page ≤ (st.totalPages : Int) →
        st.goToPage page = ({ st with currentPage := page.toNat }, [page.toNat])) := by
  constructor
  · intro hout
    simp only [PaginationManager.goToPage]
    rw [if_neg]
    rintro ⟨h1, h2⟩
    rcases hout with hout | hout <;> omega
  · intro h1 h2
    simp only [PaginationManager.goToPage]
    rw [if_pos ⟨h1, h2⟩]

/-- Witness for `goToPage_spec`: from page 2 of 5, `goToPage 7` is a no-op
with no callback, and `goToPage 3` moves to page 3 firing the callback
once. -/
theorem goToPage_spec_witness :
    (⟨2, 10, 50, 5⟩ : PaginationManager).goToPage 7 = (⟨2, 10, 50, 5⟩, [])
    ∧ (⟨2, 10, 50, 5⟩ : PaginationManager).goToPage 3 = (⟨3, 10, 50, 5⟩, [3]) := by
  constructor
  · exact (goToPage_spec ⟨2, 10, 50, 5⟩ 7).1 (Or.inr (by decide))
  · rw [(goToPage_spec (⟨2, 10, 50, 5⟩ : PaginationManager) 3).2 (by decide) (by decide)]
    rfl

/-- Claim C6 is false as stated: from the reachable state at page 1 of 5,
`goToPage 1` targets the current page and still fires the callback (once,
with argument 1) although the page does not change. -/
theorem goToPage_same_page_callback_cex :
    PaginationManager.Reachable ((PaginationManager.init (some 10)).setTotalItems 50)
    ∧ (((PaginationManager.init (some 10)).setTotalItems 50).goToPage 1).1
        = (PaginationManager.init (some 10)).setTotalItems 50
    ∧ (((PaginationManager.init (some 10)).setTotalItems 50).goToPage 1).2 = [1] :=
  ⟨PaginationManager.Reachable.setTotal 50 (PaginationManager.Reachable.init (some 10)),
   by decide, by decide⟩

/-- Claim C6 (amended): `nextPage` and `previousPage` never fire the
callback without the current page actually changing, but `goToPage` fires
the callback (exactly once) precisely when its target lies in
`1..totalPages` — including when the target equals the current page. -/
theorem navigation_callback_rules (st : PaginationManager) (page : Int) :
    (st.nextPage.2 ≠ [] → st.nextPage.1.currentPage ≠ st.currentPage)
    ∧ (st.previousPage.2 ≠ [] → st.previousPage.1.currentPage ≠ st.currentPage)
    ∧ ((st.goToPage page).2 ≠ [] ↔ 1 ≤ page ∧ page ≤ (st.totalPages : Int))
    ∧ ((st.goToPage page).2 ≠ [] → (st.goToPage page).2 = [page.toNat]) := by
  refine ⟨?_, ?_, ?_, ?_⟩
  · simp only [PaginationManager.nextPage]
    split
    · intro _
      simp only []
      omega
    · intro hne
      exact absurd rfl hne
  · simp only [PaginationManager.previousPage]
    split
    · rename_i hc
      intro _
      simp only []
      omega
    · intro hne
      exact absurd rfl hne
  · simp only [PaginationManager.goToPage]
    split
    · rename_i hc
      simpa using hc
    · rename_i hc
      simpa using hc
  · simp only [PaginationManager.goToPage]
    split
    · intro _
      rfl
    · intro hne
      exact absurd rfl hne

/-- Witness for `navigation_callback_rules`: at page 1 of 5, `nextPage`
fires and changes the page, and `goToPage 1` fires its callback. -/
theorem navigation_callback_rules_witness :
    (⟨1, 10, 50, 5⟩ : PaginationManager).nextPage.1.currentPage
        ≠ (⟨1, 10, 50, 5⟩ : PaginationManager).currentPage
    ∧ ((⟨1, 10, 50, 5⟩ : PaginationManager).goToPage 1).2 ≠ [] :=
  ⟨(navigation_callback_rules ⟨1, 10, 50, 5⟩ 1).1 (by decide),
   ((navigation_callback_rules ⟨1, 10, 50, 5⟩ 1).2.2.1).mpr (by decide)⟩

/-- Claim C7: for a current page `p ≥ 1` and page size `s ≥ 1`,
`getPageData` returns exactly the slice `items[(p-1)*s : p*s]`; in
particular page 3 of a 25-item list with page size 10 holds the items at
indices 20 through 24. -/
theorem getPageData_slice {α : Type} (data : List α) (st : PaginationManager)
    (hp : 1 ≤ st.currentPage) (_hs : 1 ≤ st.pageSize) :
    st.getPageData data
      = (data.take (st.currentPage * st.pageSize)).drop
          ((st.currentPage - 1) * st.pageSize) := by
  simp only [PaginationManager.getPageData]
  rw [List.drop_take]
  congr 1
  obtain ⟨k, hk⟩ := Nat.exists_eq_add_of_le hp
  rw [hk, Nat.add_sub_cancel_left, Nat.add_mul, Nat.one_mul, Nat.add_sub_cancel]

/-- Witness for `getPageData_slice`: page 3 with page size 10 over
`0..24` is the slice from index 20 to 30 clamped at the end, namely
`[20, 21, 22, 23, 24]`. -/
theorem getPageData_slice_witness :
    (⟨3, 10, 25, 3⟩ : PaginationManager).getPageData (List.range 25)
      = ((List.range 25).take (3 * 10)).drop ((3 - 1) * 10)
    ∧ (⟨3, 10, 25, 3⟩ : PaginationManager).getPageData (List.range 25)
      = [20, 21, 22, 23, 24] :=
  ⟨getPageData_slice (List.range 25) ⟨3, 10, 25, 3⟩ (by decide) (by decide),
   by decide⟩
